import Mathlib

/-!
Network-container resource of the Infoblox provider.

A shallow embedding of `infoblox/resource_infoblox_network_container.go`:
the four lifecycle callbacks `resourceNetworkContainerCreate`, `...Read`,
`...Update` and `...Delete`, run against an arbitrary deterministic connector.

Every callback is a function from the resource data (configuration, prior
state and current identifier) to an `Outcome`: how the Go function ended, the
identifier the resource holds afterwards, and the object-manager calls it
made, in order, each with the connector's answer.

Two collaborators live outside the repository and are parameters here:
`json.Unmarshal` (argument `jsonUnmarshal`) and the connector behind
`ibclient.ObjectManager` (argument `m`). A connector answers a call with an
error message or with the `Ref` of the object it returns; its answer may depend
on the calls made before in the same invocation. Error values are modelled by
their messages, as `fmt.Errorf` builds them.
-/

namespace Infoblox

/-- A value decoded by `json.Unmarshal` into a Go `interface{}`: `nil`, `bool`,
`float64` (kept as its IEEE-754 bit pattern), `string`, `[]interface{}` or
`map[string]interface{}`. -/
inductive JSONValue where
  | null
  | bool (b : Bool)
  | number (bits : Nat)
  | str (s : String)
  | array (xs : List JSONValue)
  | object (kvs : List (String × JSONValue))

/-- The Go map `extAttrs : map[string]interface{}`, as its entries in the order
a `range` over it visits them. -/
abbrev ExtAttrs := List (String × JSONValue)

/-- What `*schema.ResourceData` holds for this resource: the identifier
(`d.Id()`), the six schema fields as `d.Get` sees them, and the value of
`network_view` in the prior state, which `d.HasChange` compares against.
`comment` is `none` when the field is not set in the configuration. -/
structure ResourceData where
  id : String
  prior_network_view : String
  network_view : String
  parent_cidr : String
  cidr : String
  allocate_prefix_len : Int
  comment : Option String
  ext_attrs : String

/-- The schema default of `allocate_prefix_len` (`Default: 0`). -/
def allocatePrefixLenDefault : Int := 0

/-- Reading `d.Get("comment").(string)`: the configured text, or the schema default
`""` when the field is not set. -/
def ResourceData.getComment (d : ResourceData) : String :=
  d.comment.getD ""

/-- Reading `d.GetOk("comment")`: the value and whether it is set to something
other than the zero value. -/
def ResourceData.getOkComment (d : ResourceData) : String × Bool :=
  match d.comment with
  | none => ("", false)
  | some s => (s, decide (s ≠ ""))

/-- Evaluating `d.HasChange("network_view")`. -/
def ResourceData.hasChangeNetworkView (d : ResourceData) : Bool :=
  decide (d.prior_network_view ≠ d.network_view)

/-- The object-manager methods the resource calls, with their arguments. -/
inductive Request where
  | CreateNetworkContainer (netview cidr : String) (isIPv6 : Bool) (comment : String)
      (eas : ExtAttrs)
  | GetNetworkContainer (netview cidr : String) (isIPv6 : Bool) (eaSearch : Option ExtAttrs)
  | AllocateNetworkContainer (netview cidr : String) (isIPv6 : Bool) (prefixLen : Nat)
      (comment : String) (eas : ExtAttrs)
  | GetNetworkContainerByRef (ref : String)
  | UpdateNetworkContainer (ref : String) (eas : ExtAttrs) (comment : String)
  | DeleteNetworkContainer (ref : String)

/-- The scope `ibclient.NewObjectManager(connector, cmpType, tenantID)` fixes for
every call made through the manager. -/
structure ObjectManager where
  cmpType : String
  tenantID : String

/-- One call as it reaches the connector: the manager's scope and the request. -/
structure Call where
  cmpType : String
  tenantID : String
  req : Request

/-- The call an object manager makes for a request. -/
def ObjectManager.call (o : ObjectManager) (r : Request) : Call :=
  ⟨o.cmpType, o.tenantID, r⟩

/-- A connector: given the calls already made in this invocation and the next
call, it answers with an error message or with the reference (`Ref`) of the
object it returns. -/
structure IBConnector where
  respond : List Call → Call → Except String String

/-- How a callback ends: `return nil`, `return fmt.Errorf(...)`, or a run-time
panic of the Go program. -/
inductive OpResult where
  | ok
  | error (msg : String)
  | panicked

/-- The observable effect of one callback invocation. -/
structure Outcome where
  result : OpResult
  id : String
  calls : List (Call × Except String String)

/-- Lines 58-64 (and 116-122, 147-153, 188-194): the extended attributes start as
an empty map and are decoded from `ext_attrs` only when that string is not
empty; a decoding error is passed on as its message. -/
def decodeExtAttrs (jsonUnmarshal : String → Except String ExtAttrs)
    (extAttrJSON : String) : Except String ExtAttrs :=
  if extAttrJSON ≠ "" then jsonUnmarshal extAttrJSON else .ok []

/-- The checked type assertion `attrValue, _ := attrValueInf.(string)`. -/
def assertStringOk : JSONValue → String
  | .str s => s
  | _ => ""

/-- The unchecked type assertion `tempVal.(string)`: `none` stands for the panic
on a value that is not a string. -/
def assertString : JSONValue → Option String
  | .str s => some s
  | _ => none

/-- Lines 65-72 and 195-202 (create, delete): the `range` loop that takes the
tenant from the `"Tenant ID"` entry and stops there. -/
def tenantIDByRange : ExtAttrs → String
  | [] => ""
  | (attrName, attrValueInf) :: rest =>
    if attrName = "Tenant ID" then assertStringOk attrValueInf
    else tenantIDByRange rest

/-- Lines 123-127 and 155-159 (read, update): the map lookup followed by the
unchecked assertion; `none` when the assertion panics. -/
def tenantIDByLookup (extAttrs : ExtAttrs) : Option String :=
  match extAttrs.lookup "Tenant ID" with
  | some tempVal => assertString tempVal
  | none => some ""

/-- The conversion `uint(prefixLen)` of a Go `int` on a 64-bit platform. -/
def toUint (prefixLen : Int) : Nat :=
  (prefixLen % 2 ^ 64).toNat

/-- Lines 51-113. -/
def resourceNetworkContainerCreate (jsonUnmarshal : String → Except String ExtAttrs)
    (m : IBConnector) (d : ResourceData) (isIPv6 : Bool) : Outcome :=
  let nvName := d.network_view
  let parentCidr := d.parent_cidr
  let cidr := d.cidr
  let comment := d.getComment
  let prefixLen := d.allocate_prefix_len
  match decodeExtAttrs jsonUnmarshal d.ext_attrs with
  | .error err => ⟨.error ("cannot process 'ext_attrs' field: " ++ err), d.id, []⟩
  | .ok extAttrs =>
    let tenantID := tenantIDByRange extAttrs
    if prefixLen < 2 then
      ⟨.error "prefixLen is less than 2", d.id, []⟩
    else if nvName = "" then
      ⟨.error "Tenant ID, network view's name are required to create a network container",
        d.id, []⟩
    else
      let objMgr : ObjectManager := ⟨"Terraform", tenantID⟩
      if prefixLen < 7 then
        let c := objMgr.call (.CreateNetworkContainer nvName cidr isIPv6 comment extAttrs)
        match m.respond [] c with
        | .error err =>
          ⟨.error ("creation of IPv6 network container block failed in network view '"
              ++ nvName ++ "': " ++ err), d.id, [(c, .error err)]⟩
        | .ok ref => ⟨.ok, ref, [(c, .ok ref)]⟩
      else
        let g := objMgr.call (.GetNetworkContainer nvName parentCidr isIPv6 none)
        match m.respond [] g with
        | .error err =>
          ⟨.error ("Allocation of network block within network container '" ++ parentCidr
              ++ "' under network view '" ++ nvName ++ "' failed: " ++ err),
            d.id, [(g, .error err)]⟩
        | .ok found =>
          let a := objMgr.call
            (.AllocateNetworkContainer nvName parentCidr isIPv6 (toUint prefixLen) comment
              extAttrs)
          match m.respond [g] a with
          | .error err =>
            ⟨.error ("Allocation of network block failed in network view (" ++ nvName
                ++ ") : " ++ err), d.id, [(g, .ok found), (a, .error err)]⟩
          | .ok ref => ⟨.ok, ref, [(g, .ok found), (a, .ok ref)]⟩

/-- Lines 115-139. -/
def resourceNetworkContainerRead (jsonUnmarshal : String → Except String ExtAttrs)
    (m : IBConnector) (d : ResourceData) : Outcome :=
  match decodeExtAttrs jsonUnmarshal d.ext_attrs with
  | .error err => ⟨.error ("cannot process 'ext_attrs' field: " ++ err), d.id, []⟩
  | .ok extAttrs =>
    match tenantIDByLookup extAttrs with
    | none => ⟨.panicked, d.id, []⟩
    | some tenantID =>
      let objMgr : ObjectManager := ⟨"Terraform", tenantID⟩
      let c := objMgr.call (.GetNetworkContainerByRef d.id)
      match m.respond [] c with
      | .error err =>
        ⟨.error ("failed to retrieve network container: " ++ err), d.id, [(c, .error err)]⟩
      | .ok ref => ⟨.ok, ref, [(c, .ok ref)]⟩

/-- Lines 141-185. -/
def resourceNetworkContainerUpdate (jsonUnmarshal : String → Except String ExtAttrs)
    (m : IBConnector) (d : ResourceData) : Outcome :=
  let nvName := d.network_view
  if d.hasChangeNetworkView then
    ⟨.error "changing the value of 'network_view' field is not allowed", d.id, []⟩
  else
    let cidr := d.cidr
    match decodeExtAttrs jsonUnmarshal d.ext_attrs with
    | .error err => ⟨.error ("cannot process 'ext_attrs' field: " ++ err), d.id, []⟩
    | .ok extAttrs =>
      match tenantIDByLookup extAttrs with
      | none => ⟨.panicked, d.id, []⟩
      | some tenantID =>
        if cidr = "" ∨ nvName = "" then
          ⟨.error
            "Tenant ID, network view's name and CIDR are required to update a network container",
            d.id, []⟩
        else
          let objMgr : ObjectManager := ⟨"Terraform", tenantID⟩
          let comment := if d.getOkComment.2 then d.getOkComment.1 else ""
          let c := objMgr.call (.UpdateNetworkContainer d.id extAttrs comment)
          match m.respond [] c with
          | .error err =>
            ⟨.error ("failed to update the network container in network view '" ++ nvName
                ++ "': " ++ err), d.id, [(c, .error err)]⟩
          | .ok ref => ⟨.ok, ref, [(c, .ok ref)]⟩

/-- Lines 187-212. -/
def resourceNetworkContainerDelete (jsonUnmarshal : String → Except String ExtAttrs)
    (m : IBConnector) (d : ResourceData) : Outcome :=
  match decodeExtAttrs jsonUnmarshal d.ext_attrs with
  | .error err => ⟨.error ("cannot process 'ext_attrs' field: " ++ err), d.id, []⟩
  | .ok extAttrs =>
    let tenantID := tenantIDByRange extAttrs
    let objMgr : ObjectManager := ⟨"Terraform", tenantID⟩
    let c := objMgr.call (.DeleteNetworkContainer d.id)
    match m.respond [] c with
    | .error err =>
      ⟨.error ("deletion of the network container failed: " ++ err), d.id, [(c, .error err)]⟩
    | .ok ref => ⟨.ok, d.id, [(c, .ok ref)]⟩

/-- Lines 219-221. -/
def resourceIPv4NetworkContainerCreate (jsonUnmarshal : String → Except String ExtAttrs)
    (m : IBConnector) (d : ResourceData) : Outcome :=
  resourceNetworkContainerCreate jsonUnmarshal m d false

/-- Lines 250-252. -/
def resourceIPv6NetworkContainerCreate (jsonUnmarshal : String → Except String ExtAttrs)
    (m : IBConnector) (d : ResourceData) : Outcome :=
  resourceNetworkContainerCreate jsonUnmarshal m d true

/-- The string `ext_attrs` is well-formed and stands for the map `attrs`: it is
empty, and the map stays empty, or `json.Unmarshal` accepts it and yields `attrs`. -/
def WellFormedExtAttrs (jsonUnmarshal : String → Except String ExtAttrs)
    (extAttrJSON : String) (attrs : ExtAttrs) : Prop :=
  (extAttrJSON = "" ∧ attrs = []) ∨ (extAttrJSON ≠ "" ∧ jsonUnmarshal extAttrJSON = .ok attrs)

/-- The spec's direct-create scenario: `network_view = "default"`,
`cidr = "10.0.0.0/24"`, `allocate_prefix_len = 0`, nothing else set, no identifier yet. -/
def scenarioDirectCreate : ResourceData :=
  { id := "", prior_network_view := "", network_view := "default", parent_cidr := "",
    cidr := "10.0.0.0/24", allocate_prefix_len := allocatePrefixLenDefault,
    comment := none, ext_attrs := "" }

/-- A connector that accepts every call and answers with the reference `ref`. -/
def acceptingConnector (ref : String) : IBConnector :=
  ⟨fun _ _ => .ok ref⟩

/-- A connector that rejects every call with the message `msg`. -/
def rejectingConnector (msg : String) : IBConnector :=
  ⟨fun _ _ => .error msg⟩

/-- A decoder used on concrete inputs: it knows the two documents
`{"Tenant ID": "acme"}` and `{"Tenant ID": 42}` and rejects every other text the
way `json.Unmarshal` rejects a truncated document. -/
def sampleUnmarshal (s : String) : Except String ExtAttrs :=
  if s = "\x7b\"Tenant ID\": \"acme\"\x7d" then .ok [("Tenant ID", .str "acme")]
  else if s = "\x7b\"Tenant ID\": 42\x7d" then
    .ok [("Tenant ID", .number 0x4045000000000000)]
  else .error "unexpected end of JSON input"

/-- The create-container request the direct-create path is expected to send. -/
def createCall (d : ResourceData) (attrs : ExtAttrs) (isIPv6 : Bool) : Call :=
  { cmpType := "Terraform", tenantID := tenantIDByRange attrs,
    req := .CreateNetworkContainer d.network_view d.cidr isIPv6 d.getComment attrs }

/-- The parent-container lookup the allocate-from-parent path is expected to send. -/
def lookupCall (d : ResourceData) (attrs : ExtAttrs) (isIPv6 : Bool) : Call :=
  { cmpType := "Terraform", tenantID := tenantIDByRange attrs,
    req := .GetNetworkContainer d.network_view d.parent_cidr isIPv6 none }

/-- The allocate-next-available request the allocate-from-parent path is expected
to send, for the prefix length `n`. -/
def allocateCall (d : ResourceData) (attrs : ExtAttrs) (isIPv6 : Bool) (n : Nat) : Call :=
  { cmpType := "Terraform", tenantID := tenantIDByRange attrs,
    req := .AllocateNetworkContainer d.network_view d.parent_cidr isIPv6 n d.getComment attrs }

/-- The spec's allocation scenario: `network_view = "default"`,
`parent_cidr = "10.0.0.0/16"`, `allocate_prefix_len = 24`. -/
def scenarioAllocate : ResourceData :=
  { id := "", prior_network_view := "", network_view := "default",
    parent_cidr := "10.0.0.0/16", cidr := "", allocate_prefix_len := 24,
    comment := none, ext_attrs := "" }

/-- A direct-create configuration with a prefix length between 2 and 6. -/
def scenarioSmallPrefix : ResourceData :=
  { id := "", prior_network_view := "", network_view := "default", parent_cidr := "",
    cidr := "10.0.0.0/24", allocate_prefix_len := 4, comment := some "lab", ext_attrs := "" }

/-- A configuration with `allocate_prefix_len = 1`. -/
def scenarioPrefixOne : ResourceData :=
  { id := "", prior_network_view := "", network_view := "default", parent_cidr := "",
    cidr := "10.0.0.0/24", allocate_prefix_len := 1, comment := none, ext_attrs := "" }

/-- An update whose configuration renames the network view of an existing
container, with an `ext_attrs` text that is cut short. -/
def scenarioViewChanged : ResourceData :=
  { id := "networkcontainer/abc:10.0.0.0/24/default", prior_network_view := "default",
    network_view := "other", parent_cidr := "", cidr := "10.0.0.0/24",
    allocate_prefix_len := 0, comment := none, ext_attrs := "\x7b" }

/-- An existing container whose configuration keeps its network view and carries
the cut-short `ext_attrs` text `{`. -/
def scenarioBadAttrs : ResourceData :=
  { id := "networkcontainer/abc:10.0.0.0/24/default", prior_network_view := "default",
    network_view := "default", parent_cidr := "", cidr := "10.0.0.0/24",
    allocate_prefix_len := 0, comment := none, ext_attrs := "\x7b" }

/-- The update request update is expected to send. -/
def updateCall (d : ResourceData) (attrs : ExtAttrs) : Call :=
  { cmpType := "Terraform", tenantID := tenantIDByRange attrs,
    req := .UpdateNetworkContainer d.id attrs (d.comment.getD "") }

/-- A delete of an existing container whose `ext_attrs` is `{"Tenant ID": "acme"}`. -/
def scenarioTenantAcme : ResourceData :=
  { id := "networkcontainer/abc:10.0.0.0/24/default", prior_network_view := "default",
    network_view := "default", parent_cidr := "", cidr := "10.0.0.0/24",
    allocate_prefix_len := 0, comment := none,
    ext_attrs := "\x7b\"Tenant ID\": \"acme\"\x7d" }

/-- An existing container whose `ext_attrs` is `{"Tenant ID": 42}`. -/
def scenarioTenantNumber : ResourceData :=
  { id := "networkcontainer/abc:10.0.0.0/24/default", prior_network_view := "default",
    network_view := "default", parent_cidr := "", cidr := "10.0.0.0/24",
    allocate_prefix_len := 0, comment := none,
    ext_attrs := "\x7b\"Tenant ID\": 42\x7d" }

/-- An update of an existing container with an empty `cidr` and the cut-short
`ext_attrs` text `{`; the network view is unchanged. -/
def scenarioEmptyCidrBadAttrs : ResourceData :=
  { id := "networkcontainer/abc:10.0.0.0/24/default", prior_network_view := "default",
    network_view := "default", parent_cidr := "", cidr := "",
    allocate_prefix_len := 0, comment := none, ext_attrs := "\x7b" }

/-- An update of an existing container with an empty `cidr`, nothing else amiss. -/
def scenarioEmptyCidr : ResourceData :=
  { id := "networkcontainer/abc:10.0.0.0/24/default", prior_network_view := "default",
    network_view := "default", parent_cidr := "", cidr := "",
    allocate_prefix_len := 0, comment := none, ext_attrs := "" }

/-- A create configuration with a valid prefix length and an empty network view. -/
def scenarioNoView : ResourceData :=
  { id := "", prior_network_view := "", network_view := "", parent_cidr := "10.0.0.0/16",
    cidr := "", allocate_prefix_len := 24, comment := none, ext_attrs := "" }

/-! ## Properties -/

theorem decodeExtAttrs_of_wellFormed {jsonUnmarshal : String → Except String ExtAttrs}
    {s : String} {attrs : ExtAttrs} (h : WellFormedExtAttrs jsonUnmarshal s attrs) :
    decodeExtAttrs jsonUnmarshal s = .ok attrs := by
  rcases h with ⟨hs, ha⟩ | ⟨hs, hu⟩
  · simp [decodeExtAttrs, hs, ha]
  · simp [decodeExtAttrs, hs, hu]

theorem decodeExtAttrs_of_rejected {jsonUnmarshal : String → Except String ExtAttrs}
    {s e : String} (hs : s ≠ "") (hu : jsonUnmarshal s = .error e) :
    decodeExtAttrs jsonUnmarshal s = .error e := by
  simp [decodeExtAttrs, hs, hu]

theorem toUint_of_nonneg {p : Int} (h0 : 0 ≤ p) (h1 : p < 2 ^ 63) : (toUint p : Int) = p := by
  unfold toUint
  have h2 : p % 2 ^ 64 = p := Int.emod_eq_of_lt h0 (by omega)
  rw [h2]
  exact Int.toNat_of_nonneg h0

/-- C1 (the code departs from the claim): on the spec's scenario
`{network_view: "default", cidr: "10.0.0.0/24", allocate_prefix_len: 0}` the IPv4
create callback sends no create-container request at all: whatever the decoder
and the connector, it returns the error "prefixLen is less than 2", makes no
connector call and sets no identifier. -/
theorem create_default_prefix_len_rejected :
    ∀ (jsonUnmarshal : String → Except String ExtAttrs) (m : IBConnector),
      resourceIPv4NetworkContainerCreate jsonUnmarshal m scenarioDirectCreate
        = ⟨.error "prefixLen is less than 2", "", []⟩ := by
  intro jsonUnmarshal m
  simp [resourceIPv4NetworkContainerCreate, resourceNetworkContainerCreate,
    scenarioDirectCreate, decodeExtAttrs, allocatePrefixLenDefault]

/-- C2: with `allocate_prefix_len ≥ 7`, a non-empty `network_view` and well-formed
`ext_attrs`, create first looks the parent container up by
`(network_view, parent_cidr, family)`. If the lookup fails, create returns an
error, the lookup is the only call made (no allocate, no create-container
request) and the identifier is unchanged. If it succeeds, the calls are exactly
the lookup followed by one allocate-next-available request with the same
`network_view`, `parent_cidr` and family, whose prefix length equals
`allocate_prefix_len` (a Go `int`, hence below `2 ^ 63`, so that `uint(prefixLen)`
keeps its value). -/
theorem create_allocate_from_parent (jsonUnmarshal : String → Except String ExtAttrs)
    (m : IBConnector) (d : ResourceData) (isIPv6 : Bool) (attrs : ExtAttrs)
    (hwf : WellFormedExtAttrs jsonUnmarshal d.ext_attrs attrs)
    (hnv : d.network_view ≠ "")
    (h7 : 7 ≤ d.allocate_prefix_len) (hint : d.allocate_prefix_len < 2 ^ 63) :
    (∀ e, m.respond [] (lookupCall d attrs isIPv6) = .error e →
      resourceNetworkContainerCreate jsonUnmarshal m d isIPv6
        = ⟨.error ("Allocation of network block within network container '" ++ d.parent_cidr
            ++ "' under network view '" ++ d.network_view ++ "' failed: " ++ e),
          d.id, [(lookupCall d attrs isIPv6, .error e)]⟩) ∧
    (∀ found, m.respond [] (lookupCall d attrs isIPv6) = .ok found →
      (resourceNetworkContainerCreate jsonUnmarshal m d isIPv6).calls
        = [(lookupCall d attrs isIPv6, .ok found),
           (allocateCall d attrs isIPv6 (toUint d.allocate_prefix_len),
            m.respond [lookupCall d attrs isIPv6]
              (allocateCall d attrs isIPv6 (toUint d.allocate_prefix_len)))]) ∧
    ((toUint d.allocate_prefix_len : Int) = d.allocate_prefix_len) := by
  have hdec := decodeExtAttrs_of_wellFormed hwf
  have h2 : ¬ d.allocate_prefix_len < 2 := by omega
  have h7' : ¬ d.allocate_prefix_len < 7 := by omega
  refine ⟨?_, ?_, toUint_of_nonneg (by omega) hint⟩
  · intro e he
    simp only [lookupCall] at he
    simp [resourceNetworkContainerCreate, hdec, h2, h7', hnv, ObjectManager.call, he,
      lookupCall]
  · intro found hf
    simp only [lookupCall] at hf
    simp only [resourceNetworkContainerCreate, hdec, h2, h7', hnv, ObjectManager.call, hf,
      lookupCall, allocateCall, if_false]
    cases hr : m.respond
        [{ cmpType := "Terraform", tenantID := tenantIDByRange attrs,
           req := .GetNetworkContainer d.network_view d.parent_cidr isIPv6 none }]
        { cmpType := "Terraform", tenantID := tenantIDByRange attrs,
          req := .AllocateNetworkContainer d.network_view d.parent_cidr isIPv6
            (toUint d.allocate_prefix_len) d.getComment attrs } <;> simp [hr]

/-- C2 at the spec's scenario (`parent_cidr = "10.0.0.0/16"`, prefix length 24)
against a connector that answers "not found": the lookup is the only call. -/
theorem create_allocate_from_parent_witness :
    WellFormedExtAttrs sampleUnmarshal scenarioAllocate.ext_attrs [] ∧
    scenarioAllocate.network_view ≠ "" ∧
    (7 : Int) ≤ scenarioAllocate.allocate_prefix_len ∧
    (resourceNetworkContainerCreate sampleUnmarshal (rejectingConnector "not found")
        scenarioAllocate false).calls
      = [(⟨"Terraform", "", .GetNetworkContainer "default" "10.0.0.0/16" false none⟩,
          .error "not found")] ∧
    (toUint 24 : Int) = 24 :=
  have h := create_allocate_from_parent sampleUnmarshal (rejectingConnector "not found")
    scenarioAllocate false [] (Or.inl ⟨rfl, rfl⟩) (by decide) (by decide) (by decide)
  ⟨Or.inl ⟨rfl, rfl⟩, by decide, by decide,
    by rw [h.1 "not found" rfl]; rfl, h.2.2⟩

/-- C3: with `2 ≤ allocate_prefix_len < 7`, a non-empty `network_view` and
well-formed `ext_attrs`, create makes exactly one call, the create-container
request with `(network_view, cidr, family, comment, extended attributes)`, and
so no lookup and no allocate request. When the connector answers with a
reference, create succeeds and that reference is the identifier; when it answers
with an error, create returns an error whose message contains the network-view
name and the connector's message, and the identifier is unchanged. -/
theorem create_direct_small_prefix (jsonUnmarshal : String → Except String ExtAttrs)
    (m : IBConnector) (d : ResourceData) (isIPv6 : Bool) (attrs : ExtAttrs)
    (hwf : WellFormedExtAttrs jsonUnmarshal d.ext_attrs attrs)
    (hnv : d.network_view ≠ "")
    (h2 : 2 ≤ d.allocate_prefix_len) (h7 : d.allocate_prefix_len < 7) :
    (resourceNetworkContainerCreate jsonUnmarshal m d isIPv6).calls
      = [(createCall d attrs isIPv6, m.respond [] (createCall d attrs isIPv6))] ∧
    (∀ ref, m.respond [] (createCall d attrs isIPv6) = .ok ref →
      (resourceNetworkContainerCreate jsonUnmarshal m d isIPv6).result = .ok ∧
      (resourceNetworkContainerCreate jsonUnmarshal m d isIPv6).id = ref) ∧
    (∀ e, m.respond [] (createCall d attrs isIPv6) = .error e →
      ∃ msg, (resourceNetworkContainerCreate jsonUnmarshal m d isIPv6).result = .error msg ∧
        d.network_view.data <:+: msg.data ∧ e.data <:+: msg.data ∧
        (resourceNetworkContainerCreate jsonUnmarshal m d isIPv6).id = d.id) := by
  have hdec := decodeExtAttrs_of_wellFormed hwf
  have h2' : ¬ d.allocate_prefix_len < 2 := by omega
  cases hr : m.respond [] (createCall d attrs isIPv6) with
  | error e0 =>
    have hr' := hr
    simp only [createCall] at hr'
    refine ⟨?_, ?_, ?_⟩
    · simp [resourceNetworkContainerCreate, hdec, h2', h7, hnv, ObjectManager.call, hr',
        createCall]
    · intro ref h
      cases h
    · intro e h
      cases h
      refine ⟨"creation of IPv6 network container block failed in network view '"
        ++ d.network_view ++ "': " ++ e0, ?_, ?_, ?_, ?_⟩
      · simp [resourceNetworkContainerCreate, hdec, h2', h7, hnv, ObjectManager.call, hr']
      · simp only [String.data_append]
        exact (List.infix_append _ _ _).trans (List.prefix_append _ _).isInfix
      · simp only [String.data_append]
        exact (List.suffix_append _ _).isInfix
      · simp [resourceNetworkContainerCreate, hdec, h2', h7, hnv, ObjectManager.call, hr']
  | ok r0 =>
    have hr' := hr
    simp only [createCall] at hr'
    refine ⟨?_, ?_, ?_⟩
    · simp [resourceNetworkContainerCreate, hdec, h2', h7, hnv, ObjectManager.call, hr',
        createCall]
    · intro ref h
      cases h
      simp [resourceNetworkContainerCreate, hdec, h2', h7, hnv, ObjectManager.call, hr']
    · intro e h
      cases h

/-- C3 at a configuration with prefix length 4 and comment "lab", against a
connector that accepts: one create-container call, and its reference is the
identifier. -/
theorem create_direct_small_prefix_witness :
    WellFormedExtAttrs sampleUnmarshal scenarioSmallPrefix.ext_attrs [] ∧
    scenarioSmallPrefix.network_view ≠ "" ∧
    (2 : Int) ≤ scenarioSmallPrefix.allocate_prefix_len ∧
    scenarioSmallPrefix.allocate_prefix_len < 7 ∧
    (resourceNetworkContainerCreate sampleUnmarshal (acceptingConnector "ref1")
        scenarioSmallPrefix false).calls
      = [(⟨"Terraform", "", .CreateNetworkContainer "default" "10.0.0.0/24" false "lab" []⟩,
          .ok "ref1")] ∧
    (resourceNetworkContainerCreate sampleUnmarshal (acceptingConnector "ref1")
        scenarioSmallPrefix false).id = "ref1" :=
  have h := create_direct_small_prefix sampleUnmarshal (acceptingConnector "ref1")
    scenarioSmallPrefix false [] (Or.inl ⟨rfl, rfl⟩) (by decide) (by decide) (by decide)
  ⟨Or.inl ⟨rfl, rfl⟩, by decide, by decide, by decide, h.1, (h.2.1 "ref1" rfl).2⟩

/-- C4: when `allocate_prefix_len` is nonzero and below 2 (the value 1 and every
negative value) and `ext_attrs` is well-formed, create returns the error
"prefixLen is less than 2", makes no connector call and leaves the identifier
unchanged, whatever `network_view`, `cidr`, `parent_cidr` and `comment` are. The
proof uses only that the value is below 2. -/
theorem create_rejects_prefix_below_two (jsonUnmarshal : String → Except String ExtAttrs)
    (m : IBConnector) (d : ResourceData) (isIPv6 : Bool) (attrs : ExtAttrs)
    (hwf : WellFormedExtAttrs jsonUnmarshal d.ext_attrs attrs)
    (_h0 : d.allocate_prefix_len ≠ 0) (h2 : d.allocate_prefix_len < 2) :
    resourceNetworkContainerCreate jsonUnmarshal m d isIPv6
      = ⟨.error "prefixLen is less than 2", d.id, []⟩ := by
  have hdec := decodeExtAttrs_of_wellFormed hwf
  simp [resourceNetworkContainerCreate, hdec, h2]

/-- C4 at `allocate_prefix_len = 1`, against a connector that would accept. -/
theorem create_rejects_prefix_below_two_witness :
    WellFormedExtAttrs sampleUnmarshal scenarioPrefixOne.ext_attrs [] ∧
    scenarioPrefixOne.allocate_prefix_len ≠ 0 ∧
    scenarioPrefixOne.allocate_prefix_len < 2 ∧
    resourceNetworkContainerCreate sampleUnmarshal (acceptingConnector "ref1")
        scenarioPrefixOne false
      = ⟨.error "prefixLen is less than 2", "", []⟩ :=
  ⟨Or.inl ⟨rfl, rfl⟩, by decide, by decide,
    create_rejects_prefix_below_two sampleUnmarshal (acceptingConnector "ref1")
      scenarioPrefixOne false [] (Or.inl ⟨rfl, rfl⟩) (by decide) (by decide)⟩

/-- C5: when `network_view` in the new configuration differs from the prior
state, update returns the error "changing the value of 'network_view' field is
not allowed", makes no connector call and leaves the identifier unchanged,
whatever `cidr`, `comment` and `ext_attrs` are, malformed `ext_attrs` included
(the decoder is arbitrary and is not consulted). -/
theorem update_rejects_network_view_change
    (jsonUnmarshal : String → Except String ExtAttrs) (m : IBConnector) (d : ResourceData)
    (hchange : d.prior_network_view ≠ d.network_view) :
    resourceNetworkContainerUpdate jsonUnmarshal m d
      = ⟨.error "changing the value of 'network_view' field is not allowed", d.id, []⟩ := by
  simp [resourceNetworkContainerUpdate, ResourceData.hasChangeNetworkView, hchange]

/-- C5 at an update that renames the view "default" to "other" and carries the
cut-short `ext_attrs` text `{`. -/
theorem update_rejects_network_view_change_witness :
    scenarioViewChanged.prior_network_view ≠ scenarioViewChanged.network_view ∧
    sampleUnmarshal scenarioViewChanged.ext_attrs = .error "unexpected end of JSON input" ∧
    resourceNetworkContainerUpdate sampleUnmarshal (acceptingConnector "ref1")
        scenarioViewChanged
      = ⟨.error "changing the value of 'network_view' field is not allowed",
          "networkcontainer/abc:10.0.0.0/24/default", []⟩ :=
  ⟨by decide, rfl,
    update_rejects_network_view_change sampleUnmarshal (acceptingConnector "ref1")
      scenarioViewChanged (by decide)⟩

theorem changing_ne_cannot_process (e : String) :
    "changing the value of 'network_view' field is not allowed"
      ≠ "cannot process 'ext_attrs' field: " ++ e := by
  intro h
  have h1 := congrArg String.data h
  simp [String.data_append] at h1

/-- C6 fails for update: on an update that renames the network view and carries
the non-empty, cut-short `ext_attrs` text `{`, whatever the decoder says about
that text and whatever the connector, update returns the immutability error
"changing the value of 'network_view' field is not allowed", which is not a
"cannot process 'ext_attrs' field" error for any decoder message. -/
theorem malformed_ext_attrs_update_counterexample :
    scenarioViewChanged.ext_attrs ≠ "" ∧
    sampleUnmarshal scenarioViewChanged.ext_attrs = .error "unexpected end of JSON input" ∧
    ((∀ (jsonUnmarshal : String → Except String ExtAttrs) (m : IBConnector),
      (resourceNetworkContainerUpdate jsonUnmarshal m scenarioViewChanged).result
        = .error "changing the value of 'network_view' field is not allowed") ∧
     (∀ (jsonUnmarshal : String → Except String ExtAttrs) (m : IBConnector) (e : String),
      (resourceNetworkContainerUpdate jsonUnmarshal m scenarioViewChanged).result
        ≠ .error ("cannot process 'ext_attrs' field: " ++ e))) := by
  have hres : ∀ (jsonUnmarshal : String → Except String ExtAttrs) (m : IBConnector),
      (resourceNetworkContainerUpdate jsonUnmarshal m scenarioViewChanged).result
        = .error "changing the value of 'network_view' field is not allowed" := by
    intro jsonUnmarshal m
    simp [resourceNetworkContainerUpdate, ResourceData.hasChangeNetworkView,
      scenarioViewChanged]
  refine ⟨by decide, rfl, hres, ?_⟩
  intro jsonUnmarshal m e h
  rw [hres] at h
  exact changing_ne_cannot_process e (OpResult.error.inj h)

/-- C6, amended: when `ext_attrs` is a non-empty string that `json.Unmarshal`
rejects with message `e`, create, read and delete, and update when
`network_view` is unchanged, return the error
"cannot process 'ext_attrs' field: " followed by `e`, make no connector call and
leave the identifier unchanged. -/
theorem malformed_ext_attrs_rejected (jsonUnmarshal : String → Except String ExtAttrs)
    (m : IBConnector) (d : ResourceData) (isIPv6 : Bool) (e : String)
    (hne : d.ext_attrs ≠ "") (hrej : jsonUnmarshal d.ext_attrs = .error e) :
    resourceNetworkContainerCreate jsonUnmarshal m d isIPv6
      = ⟨.error ("cannot process 'ext_attrs' field: " ++ e), d.id, []⟩ ∧
    resourceNetworkContainerRead jsonUnmarshal m d
      = ⟨.error ("cannot process 'ext_attrs' field: " ++ e), d.id, []⟩ ∧
    resourceNetworkContainerDelete jsonUnmarshal m d
      = ⟨.error ("cannot process 'ext_attrs' field: " ++ e), d.id, []⟩ ∧
    (d.prior_network_view = d.network_view →
      resourceNetworkContainerUpdate jsonUnmarshal m d
        = ⟨.error ("cannot process 'ext_attrs' field: " ++ e), d.id, []⟩) := by
  have hdec := decodeExtAttrs_of_rejected hne hrej
  refine ⟨?_, ?_, ?_, ?_⟩
  · simp [resourceNetworkContainerCreate, hdec]
  · simp [resourceNetworkContainerRead, hdec]
  · simp [resourceNetworkContainerDelete, hdec]
  · intro hsame
    simp [resourceNetworkContainerUpdate, ResourceData.hasChangeNetworkView, hsame, hdec]

/-- C6 (amended) at the cut-short text `{` on a container whose network view is
unchanged: read fails with the decoding error and calls nothing. -/
theorem malformed_ext_attrs_rejected_witness :
    scenarioBadAttrs.ext_attrs ≠ "" ∧
    sampleUnmarshal scenarioBadAttrs.ext_attrs = .error "unexpected end of JSON input" ∧
    scenarioBadAttrs.prior_network_view = scenarioBadAttrs.network_view ∧
    resourceNetworkContainerRead sampleUnmarshal (acceptingConnector "ref1") scenarioBadAttrs
      = ⟨.error "cannot process 'ext_attrs' field: unexpected end of JSON input",
          "networkcontainer/abc:10.0.0.0/24/default", []⟩ ∧
    resourceNetworkContainerUpdate sampleUnmarshal (acceptingConnector "ref1") scenarioBadAttrs
      = ⟨.error "cannot process 'ext_attrs' field: unexpected end of JSON input",
          "networkcontainer/abc:10.0.0.0/24/default", []⟩ :=
  have h := malformed_ext_attrs_rejected sampleUnmarshal (acceptingConnector "ref1")
    scenarioBadAttrs false "unexpected end of JSON input" (by decide) rfl
  ⟨by decide, rfl, rfl, h.2.1, h.2.2.2 rfl⟩

/-- C7: every callback is atomic with respect to the identifier, for every
configuration, decoder and connector. When create, read, update or delete does
not return success, the identifier is what it was before the call. When create,
read or update returns success, the last connector call of the invocation
answered with a reference and the identifier is that reference. When delete
returns success the identifier is untouched. -/
theorem identifier_atomic (jsonUnmarshal : String → Except String ExtAttrs)
    (m : IBConnector) (d : ResourceData) (isIPv6 : Bool) :
    (((resourceNetworkContainerCreate jsonUnmarshal m d isIPv6).result ≠ .ok →
        (resourceNetworkContainerCreate jsonUnmarshal m d isIPv6).id = d.id) ∧
      ((resourceNetworkContainerCreate jsonUnmarshal m d isIPv6).result = .ok →
        ∃ c ref, (resourceNetworkContainerCreate jsonUnmarshal m d isIPv6).calls.getLast?
            = some (c, .ok ref) ∧
          (resourceNetworkContainerCreate jsonUnmarshal m d isIPv6).id = ref)) ∧
    (((resourceNetworkContainerRead jsonUnmarshal m d).result ≠ .ok →
        (resourceNetworkContainerRead jsonUnmarshal m d).id = d.id) ∧
      ((resourceNetworkContainerRead jsonUnmarshal m d).result = .ok →
        ∃ c ref, (resourceNetworkContainerRead jsonUnmarshal m d).calls.getLast?
            = some (c, .ok ref) ∧
          (resourceNetworkContainerRead jsonUnmarshal m d).id = ref)) ∧
    (((resourceNetworkContainerUpdate jsonUnmarshal m d).result ≠ .ok →
        (resourceNetworkContainerUpdate jsonUnmarshal m d).id = d.id) ∧
      ((resourceNetworkContainerUpdate jsonUnmarshal m d).result = .ok →
        ∃ c ref, (resourceNetworkContainerUpdate jsonUnmarshal m d).calls.getLast?
            = some (c, .ok ref) ∧
          (resourceNetworkContainerUpdate jsonUnmarshal m d).id = ref)) ∧
    (resourceNetworkContainerDelete jsonUnmarshal m d).id = d.id := by
  refine ⟨?_, ?_, ?_, ?_⟩
  · unfold resourceNetworkContainerCreate
    simp only []
    split
    · simp
    · split
      · simp
      · split
        · simp
        · split
          · split <;> simp
          · split
            · simp
            · split <;> simp
  · unfold resourceNetworkContainerRead
    simp only []
    split
    · simp
    · split
      · simp
      · split <;> simp
  · unfold resourceNetworkContainerUpdate
    simp only []
    split
    · simp
    · split
      · simp
      · split
        · simp
        · split
          · simp
          · split <;> simp
  · unfold resourceNetworkContainerDelete
    simp only []
    split
    · simp
    · split <;> simp

theorem lookup_of_mem_of_nodup {attrs : ExtAttrs} {k : String} {v : JSONValue}
    (hnd : (attrs.map Prod.fst).Nodup) (hmem : (k, v) ∈ attrs) :
    attrs.lookup k = some v := by
  induction attrs with
  | nil => cases hmem
  | cons hd tl ih =>
    obtain ⟨k0, v0⟩ := hd
    simp only [List.map_cons, List.nodup_cons, List.mem_map, not_exists, not_and] at hnd
    rcases List.mem_cons.mp hmem with h | h
    · cases h
      simp [List.lookup]
    · have hk : k ≠ k0 := by
        intro hk
        exact hnd.1 (k, v) h hk
      have hb : (k == k0) = false := by simpa using hk
      simp only [List.lookup, hb]
      exact ih hnd.2 h

theorem lookup_none_of_not_mem {attrs : ExtAttrs} {k : String}
    (hno : ∀ v, (k, v) ∉ attrs) : attrs.lookup k = none := by
  induction attrs with
  | nil => rfl
  | cons hd tl ih =>
    obtain ⟨k0, v0⟩ := hd
    have hk : k ≠ k0 := by
      intro hk
      exact hno v0 (by simp [hk])
    have hb : (k == k0) = false := by simpa using hk
    simp only [List.lookup, hb]
    exact ih (fun v hv => hno v (List.mem_cons_of_mem _ hv))

theorem mem_of_lookup_eq_some {attrs : ExtAttrs} {k : String} {v : JSONValue}
    (h : attrs.lookup k = some v) : (k, v) ∈ attrs := by
  induction attrs with
  | nil => cases h
  | cons hd tl ih =>
    obtain ⟨k0, v0⟩ := hd
    by_cases hk : k = k0
    · subst hk
      simp [List.lookup] at h
      simp [h]
    · have hb : (k == k0) = false := by simpa using hk
      simp only [List.lookup, hb] at h
      exact List.mem_cons_of_mem _ (ih h)

/-- The `range` loop finds what the map lookup finds. -/
theorem tenantIDByRange_eq_lookup (attrs : ExtAttrs) :
    tenantIDByRange attrs
      = match attrs.lookup "Tenant ID" with
        | some v => assertStringOk v
        | none => "" := by
  induction attrs with
  | nil => rfl
  | cons hd tl ih =>
    obtain ⟨k0, v0⟩ := hd
    by_cases hk : k0 = "Tenant ID"
    · subst hk
      simp [tenantIDByRange, List.lookup]
    · have hb : ("Tenant ID" == k0) = false := by simpa using fun h => hk h.symm
      simp only [tenantIDByRange, hk, if_false, List.lookup, hb]
      exact ih

/-- When the lookup path does not panic, both extraction paths agree. -/
theorem tenantIDByRange_of_lookup {attrs : ExtAttrs} {t : String}
    (h : tenantIDByLookup attrs = some t) : tenantIDByRange attrs = t := by
  rw [tenantIDByRange_eq_lookup]
  unfold tenantIDByLookup at h
  cases hl : attrs.lookup "Tenant ID" with
  | none =>
    rw [hl] at h
    simpa using h
  | some v =>
    rw [hl] at h
    cases v <;> simp_all [assertString, assertStringOk]

/-- The tenant both paths extract when `"Tenant ID"` holds the string `t`, or is
absent and `t` is empty. -/
theorem tenantIDByLookup_of_scope {attrs : ExtAttrs} {t : String}
    (hnd : (attrs.map Prod.fst).Nodup)
    (ht : ("Tenant ID", JSONValue.str t) ∈ attrs ∨
      ((∀ v, ("Tenant ID", v) ∉ attrs) ∧ t = "")) :
    tenantIDByLookup attrs = some t := by
  unfold tenantIDByLookup
  rcases ht with h | ⟨h, rfl⟩
  · rw [lookup_of_mem_of_nodup hnd h]
    rfl
  · rw [lookup_none_of_not_mem h]

/-- The lookup path does not panic when every `"Tenant ID"` entry is a string. -/
theorem tenantIDByLookup_isSome {attrs : ExtAttrs}
    (hstr : ∀ v, ("Tenant ID", v) ∈ attrs → ∃ s, v = JSONValue.str s) :
    ∃ t, tenantIDByLookup attrs = some t := by
  unfold tenantIDByLookup
  cases hl : attrs.lookup "Tenant ID" with
  | none => exact ⟨"", rfl⟩
  | some v =>
    obtain ⟨s, rfl⟩ := hstr v (mem_of_lookup_eq_some hl)
    exact ⟨s, rfl⟩

/-- Reading `d.GetOk("comment")` and falling back to `""` gives the configured
comment, or `""` when none is set. -/
theorem getOkComment_resolved (d : ResourceData) :
    (if d.getOkComment.2 then d.getOkComment.1 else "") = d.comment.getD "" := by
  unfold ResourceData.getOkComment
  cases hc : d.comment with
  | none => simp
  | some s =>
    by_cases hs : s = ""
    · simp [hs]
    · simp [hs]

/-- C8: for well-formed `ext_attrs` standing for a map `attrs` (a Go map, so its
keys are distinct), every connector call that create, read, update or delete
makes is scoped to the tenant `t`, where `t` is the string held under
`"Tenant ID"`, or the empty string when the map is empty or has no `"Tenant ID"`
key. Nothing but the `"Tenant ID"` entry enters the condition, so the other
attributes do not influence the scope. -/
theorem calls_scoped_to_tenant (jsonUnmarshal : String → Except String ExtAttrs)
    (m : IBConnector) (d : ResourceData) (isIPv6 : Bool) (attrs : ExtAttrs) (t : String)
    (hwf : WellFormedExtAttrs jsonUnmarshal d.ext_attrs attrs)
    (hnd : (attrs.map Prod.fst).Nodup)
    (ht : ("Tenant ID", JSONValue.str t) ∈ attrs ∨
      ((∀ v, ("Tenant ID", v) ∉ attrs) ∧ t = "")) :
    (∀ c ∈ (resourceNetworkContainerCreate jsonUnmarshal m d isIPv6).calls,
      c.1.tenantID = t) ∧
    (∀ c ∈ (resourceNetworkContainerRead jsonUnmarshal m d).calls, c.1.tenantID = t) ∧
    (∀ c ∈ (resourceNetworkContainerUpdate jsonUnmarshal m d).calls, c.1.tenantID = t) ∧
    (∀ c ∈ (resourceNetworkContainerDelete jsonUnmarshal m d).calls, c.1.tenantID = t) := by
  have hdec := decodeExtAttrs_of_wellFormed hwf
  have hl := tenantIDByLookup_of_scope hnd ht
  have hr := tenantIDByRange_of_lookup hl
  refine ⟨?_, ?_, ?_, ?_⟩
  · unfold resourceNetworkContainerCreate
    simp only [hdec, hr, ObjectManager.call]
    split
    · simp
    · split
      · simp
      · split
        · split <;> simp
        · split
          · simp
          · split <;> simp
  · unfold resourceNetworkContainerRead
    simp only [hdec, hl, ObjectManager.call]
    split <;> simp
  · unfold resourceNetworkContainerUpdate
    simp only [hdec, hl, ObjectManager.call]
    split
    · simp
    · split
      · simp
      · split <;> simp
  · unfold resourceNetworkContainerDelete
    simp only [hdec, hr, ObjectManager.call]
    split <;> simp

/-- C8 at the spec's scenario: delete with `ext_attrs = {"Tenant ID": "acme"}`
sends its one delete request scoped to "acme". -/
theorem calls_scoped_to_tenant_witness :
    WellFormedExtAttrs sampleUnmarshal scenarioTenantAcme.ext_attrs
      [("Tenant ID", .str "acme")] ∧
    (resourceNetworkContainerDelete sampleUnmarshal (acceptingConnector "ref1")
        scenarioTenantAcme).calls.length = 1 ∧
    (∀ c ∈ (resourceNetworkContainerDelete sampleUnmarshal (acceptingConnector "ref1")
        scenarioTenantAcme).calls, c.1.tenantID = "acme") :=
  ⟨Or.inr ⟨by decide, rfl⟩, rfl,
    (calls_scoped_to_tenant sampleUnmarshal (acceptingConnector "ref1") scenarioTenantAcme
      false [("Tenant ID", .str "acme")] "acme" (Or.inr ⟨by decide, rfl⟩) (by simp)
      (Or.inl (List.Mem.head _))).2.2.2⟩

theorem cannot_process_ne_required (e : String) :
    "cannot process 'ext_attrs' field: " ++ e
      ≠ "Tenant ID, network view's name and CIDR are required to update a network container"
    := by
  intro h
  have h1 := congrArg String.data h
  simp [String.data_append] at h1

/-- C9 fails as stated: on an update with an empty `cidr`, an unchanged network
view and the non-empty, cut-short `ext_attrs` text `{`, for every decoder that
rejects that text with a message `e` and every connector, update returns the
decoding error "cannot process 'ext_attrs' field: " followed by `e`, not the
"network view's name and CIDR are required" error. -/
theorem update_empty_cidr_counterexample :
    scenarioEmptyCidrBadAttrs.cidr = "" ∧
    sampleUnmarshal scenarioEmptyCidrBadAttrs.ext_attrs
      = .error "unexpected end of JSON input" ∧
    (∀ (jsonUnmarshal : String → Except String ExtAttrs) (m : IBConnector) (e : String),
      jsonUnmarshal scenarioEmptyCidrBadAttrs.ext_attrs = .error e →
      (resourceNetworkContainerUpdate jsonUnmarshal m scenarioEmptyCidrBadAttrs).result
          = .error ("cannot process 'ext_attrs' field: " ++ e) ∧
      (resourceNetworkContainerUpdate jsonUnmarshal m scenarioEmptyCidrBadAttrs).result
          ≠ .error
            "Tenant ID, network view's name and CIDR are required to update a network container")
    := by
  refine ⟨rfl, rfl, ?_⟩
  intro jsonUnmarshal m e he
  have hres : (resourceNetworkContainerUpdate jsonUnmarshal m scenarioEmptyCidrBadAttrs).result
      = .error ("cannot process 'ext_attrs' field: " ++ e) := by
    have hdec : decodeExtAttrs jsonUnmarshal scenarioEmptyCidrBadAttrs.ext_attrs = .error e :=
      decodeExtAttrs_of_rejected (by decide) he
    have hsame : scenarioEmptyCidrBadAttrs.hasChangeNetworkView = false := by decide
    simp [resourceNetworkContainerUpdate, hsame, hdec]
  refine ⟨hres, ?_⟩
  rw [hres]
  intro h
  exact cannot_process_ne_required e (OpResult.error.inj h)

/-- C9, amended: for an update whose `network_view` is unchanged and whose
`ext_attrs` is well-formed with `"Tenant ID"` absent or a string: when `cidr` or
`network_view` is empty, update returns the error "Tenant ID, network view's
name and CIDR are required to update a network container", makes no connector
call and leaves the identifier unchanged; when both are non-empty, update makes
exactly one call, the update request carrying the stored identifier, the parsed
extended attributes and the comment (the empty string when no comment is set). -/
theorem update_required_fields (jsonUnmarshal : String → Except String ExtAttrs)
    (m : IBConnector) (d : ResourceData) (attrs : ExtAttrs)
    (hsame : d.prior_network_view = d.network_view)
    (hwf : WellFormedExtAttrs jsonUnmarshal d.ext_attrs attrs)
    (hstr : ∀ v, ("Tenant ID", v) ∈ attrs → ∃ s, v = JSONValue.str s) :
    ((d.cidr = "" ∨ d.network_view = "") →
      resourceNetworkContainerUpdate jsonUnmarshal m d
        = ⟨.error
            "Tenant ID, network view's name and CIDR are required to update a network container",
          d.id, []⟩) ∧
    ((d.cidr ≠ "" ∧ d.network_view ≠ "") →
      (resourceNetworkContainerUpdate jsonUnmarshal m d).calls
        = [(updateCall d attrs, m.respond [] (updateCall d attrs))]) := by
  have hdec := decodeExtAttrs_of_wellFormed hwf
  obtain ⟨t, hl⟩ := tenantIDByLookup_isSome hstr
  have hr := tenantIDByRange_of_lookup hl
  have hch : d.hasChangeNetworkView = false := by
    simp [ResourceData.hasChangeNetworkView, hsame]
  constructor
  · intro hempty
    simp [resourceNetworkContainerUpdate, hch, hdec, hl, hempty]
  · rintro ⟨hc, hn⟩
    have hne : ¬ (d.cidr = "" ∨ d.network_view = "") := by
      rintro (h | h)
      · exact hc h
      · exact hn h
    unfold resourceNetworkContainerUpdate
    simp only [hch, hdec, hl, hne, if_false, ObjectManager.call, getOkComment_resolved,
      updateCall, hr, Bool.false_eq_true]
    split <;> simp_all

/-- C9 (amended) at an update with an empty `cidr` and nothing else amiss. -/
theorem update_required_fields_witness :
    scenarioEmptyCidr.prior_network_view = scenarioEmptyCidr.network_view ∧
    WellFormedExtAttrs sampleUnmarshal scenarioEmptyCidr.ext_attrs [] ∧
    scenarioEmptyCidr.cidr = "" ∧
    resourceNetworkContainerUpdate sampleUnmarshal (acceptingConnector "ref1")
        scenarioEmptyCidr
      = ⟨.error
          "Tenant ID, network view's name and CIDR are required to update a network container",
        "networkcontainer/abc:10.0.0.0/24/default", []⟩ :=
  ⟨rfl, Or.inl ⟨rfl, rfl⟩, rfl,
    (update_required_fields sampleUnmarshal (acceptingConnector "ref1") scenarioEmptyCidr []
      rfl (Or.inl ⟨rfl, rfl⟩) (fun _ h => nomatch h)).1 (Or.inl rfl)⟩

/-- C10 (the code departs from the claim): on the well-formed
`ext_attrs = {"Tenant ID": 42}` the two extraction paths differ. The `range`
loop of create and delete yields the empty scope and delete goes on to send its
request scoped to "", while the unchecked assertion of read and update panics:
both callbacks end in a panic without any connector call. The same holds for
every `"Tenant ID"` value that is not a string. -/
theorem tenant_extraction_diverges_on_non_string :
    sampleUnmarshal scenarioTenantNumber.ext_attrs
      = .ok [("Tenant ID", .number 0x4045000000000000)] ∧
    (resourceNetworkContainerDelete sampleUnmarshal (acceptingConnector "ref1")
        scenarioTenantNumber)
      = ⟨.ok, "networkcontainer/abc:10.0.0.0/24/default",
          [(⟨"Terraform", "",
              .DeleteNetworkContainer "networkcontainer/abc:10.0.0.0/24/default"⟩,
            .ok "ref1")]⟩ ∧
    (resourceNetworkContainerRead sampleUnmarshal (acceptingConnector "ref1")
        scenarioTenantNumber)
      = ⟨.panicked, "networkcontainer/abc:10.0.0.0/24/default", []⟩ ∧
    (resourceNetworkContainerUpdate sampleUnmarshal (acceptingConnector "ref1")
        scenarioTenantNumber)
      = ⟨.panicked, "networkcontainer/abc:10.0.0.0/24/default", []⟩ ∧
    (∀ (v : JSONValue) (rest : ExtAttrs), (∀ s, v ≠ .str s) →
      tenantIDByRange (("Tenant ID", v) :: rest) = "" ∧
      tenantIDByLookup (("Tenant ID", v) :: rest) = none) := by
  refine ⟨rfl, rfl, rfl, rfl, ?_⟩
  intro v rest hv
  cases v <;> simp_all [tenantIDByRange, tenantIDByLookup, List.lookup, assertString,
    assertStringOk]

/-- Every callback makes a bounded number of connector calls: create at most two
(two only on the allocate-from-parent path), read, update and delete at most
one, for every configuration, decoder and connector. -/
theorem calls_bounded (jsonUnmarshal : String → Except String ExtAttrs)
    (m : IBConnector) (d : ResourceData) (isIPv6 : Bool) :
    (resourceNetworkContainerCreate jsonUnmarshal m d isIPv6).calls.length ≤ 2 ∧
    (d.allocate_prefix_len < 7 →
      (resourceNetworkContainerCreate jsonUnmarshal m d isIPv6).calls.length ≤ 1) ∧
    (resourceNetworkContainerRead jsonUnmarshal m d).calls.length ≤ 1 ∧
    (resourceNetworkContainerUpdate jsonUnmarshal m d).calls.length ≤ 1 ∧
    (resourceNetworkContainerDelete jsonUnmarshal m d).calls.length ≤ 1 := by
  refine ⟨?_, ?_, ?_, ?_, ?_⟩
  · unfold resourceNetworkContainerCreate
    simp only []
    split
    · simp
    · split
      · simp
      · split
        · simp
        · split
          · split <;> simp
          · split
            · simp
            · split <;> simp
  · intro h7
    unfold resourceNetworkContainerCreate
    simp only [h7, if_true]
    split
    · simp
    · split
      · simp
      · split
        · simp
        · split <;> simp
  · unfold resourceNetworkContainerRead
    simp only []
    split
    · simp
    · split
      · simp
      · split <;> simp
  · unfold resourceNetworkContainerUpdate
    simp only []
    split
    · simp
    · split
      · simp
      · split
        · simp
        · split
          · simp
          · split <;> simp
  · unfold resourceNetworkContainerDelete
    simp only []
    split
    · simp
    · split <;> simp

/-- Every connector call of every callback is made under the fixed caller
identity "Terraform". -/
theorem calls_named_terraform (jsonUnmarshal : String → Except String ExtAttrs)
    (m : IBConnector) (d : ResourceData) (isIPv6 : Bool) :
    (∀ c ∈ (resourceNetworkContainerCreate jsonUnmarshal m d isIPv6).calls,
      c.1.cmpType = "Terraform") ∧
    (∀ c ∈ (resourceNetworkContainerRead jsonUnmarshal m d).calls,
      c.1.cmpType = "Terraform") ∧
    (∀ c ∈ (resourceNetworkContainerUpdate jsonUnmarshal m d).calls,
      c.1.cmpType = "Terraform") ∧
    (∀ c ∈ (resourceNetworkContainerDelete jsonUnmarshal m d).calls,
      c.1.cmpType = "Terraform") := by
  refine ⟨?_, ?_, ?_, ?_⟩
  · unfold resourceNetworkContainerCreate
    simp only [ObjectManager.call]
    split
    · simp
    · split
      · simp
      · split
        · simp
        · split
          · split <;> simp
          · split
            · simp
            · split <;> simp
  · unfold resourceNetworkContainerRead
    simp only [ObjectManager.call]
    split
    · simp
    · split
      · simp
      · split <;> simp
  · unfold resourceNetworkContainerUpdate
    simp only [ObjectManager.call]
    split
    · simp
    · split
      · simp
      · split
        · simp
        · split
          · simp
          · split <;> simp
  · unfold resourceNetworkContainerDelete
    simp only [ObjectManager.call]
    split
    · simp
    · split <;> simp

/-- With well-formed `ext_attrs` and a prefix length of at least 2, create with an
empty `network_view` returns the error "Tenant ID, network view's name are
required to create a network container", makes no connector call and leaves the
identifier unchanged. -/
theorem create_requires_network_view (jsonUnmarshal : String → Except String ExtAttrs)
    (m : IBConnector) (d : ResourceData) (isIPv6 : Bool) (attrs : ExtAttrs)
    (hwf : WellFormedExtAttrs jsonUnmarshal d.ext_attrs attrs)
    (h2 : 2 ≤ d.allocate_prefix_len) (hnv : d.network_view = "") :
    resourceNetworkContainerCreate jsonUnmarshal m d isIPv6
      = ⟨.error "Tenant ID, network view's name are required to create a network container",
          d.id, []⟩ := by
  have hdec := decodeExtAttrs_of_wellFormed hwf
  have h2' : ¬ d.allocate_prefix_len < 2 := by omega
  simp [resourceNetworkContainerCreate, hdec, h2', hnv]

/-- The previous property at prefix length 24 and an empty network view, against a
connector that would accept. -/
theorem create_requires_network_view_witness :
    WellFormedExtAttrs sampleUnmarshal scenarioNoView.ext_attrs [] ∧
    (2 : Int) ≤ scenarioNoView.allocate_prefix_len ∧
    scenarioNoView.network_view = "" ∧
    resourceNetworkContainerCreate sampleUnmarshal (acceptingConnector "ref1")
        scenarioNoView true
      = ⟨.error "Tenant ID, network view's name are required to create a network container",
          "", []⟩ :=
  ⟨Or.inl ⟨rfl, rfl⟩, by decide, rfl,
    create_requires_network_view sampleUnmarshal (acceptingConnector "ref1") scenarioNoView
      true [] (Or.inl ⟨rfl, rfl⟩) (by decide) rfl⟩

end Infoblox
